import Mathlib

/- Verification of the claude-swarm lifecycle components: the Redis-backed
   registry (heartbeat / status / machine keys), the agent-side
   HeartbeatReporter, the orchestrator-side MachineReaper, the Cloudflare
   orchestrator's session operations, and the in-container agent HTTP server.
   Every definition is a shallow embedding of the corresponding TypeScript
   source; the source file is named next to each definition. -/

namespace ClaudeSwarm

/-- Agent status values, from types.ts: "running" | "done" | "error". -/
inductive AgentStatus
  | running
  | done
  | error
deriving DecidableEq, Repr

/-- Reasons the reaper kills a machine, from types.ts:
    "task_done" | "heartbeat_lost" | "timeout". -/
inductive KillReason
  | task_done
  | heartbeat_lost
  | timeout
deriving DecidableEq, Repr

/-- Redis key namespace used by heartbeat.ts and reaper.ts:
    agent:heartbeat:sessionId, agent:status:sessionId, agent:machine:sessionId.
    The three key families are pairwise distinct for every session id. -/
inductive RegKey
  | heartbeat (sessionId : String)
  | status (sessionId : String)
  | machine (sessionId : String)
deriving DecidableEq, Repr

/-- Parsed registry values. heartbeat.ts writes a JSON HeartbeatPayload
    (machine_id, started_at, status) under the heartbeat key, the literal
    string "done" or a JSON error record under the status key, and the
    orchestrator writes a session-to-machine mapping record. -/
inductive RegValue
  | heartbeat (machineId : String) (startedAt : Int) (status : AgentStatus)
  | statusDone
  | statusError (message : String)
  | mapping (sessionId : String) (machineId : String)
deriving DecidableEq, Repr

/-- A stored registry entry: the value plus its TTL in seconds (none = no expiry). -/
structure RegEntry where
  value : RegValue
  ttl : Option Nat
deriving DecidableEq, Repr

/-- The Redis registry state: a partial map from keys to entries. -/
abbrev Registry := RegKey → Option RegEntry

/-- redis.get: read the value stored at a key. -/
def rget (r : Registry) (k : RegKey) : Option RegValue :=
  (r k).map (fun e => e.value)

/-- redis.set / redis.setex: store a value with a TTL at a key. -/
def rset (r : Registry) (k : RegKey) (v : RegValue) (ttl : Option Nat) : Registry :=
  fun k2 => if k2 = k then some ⟨v, ttl⟩ else r k2

/-- redis.del: remove a key (a no-op when the key is absent). -/
def rdel (r : Registry) (k : RegKey) : Registry :=
  fun k2 => if k2 = k then none else r k2

/-- The empty registry. -/
def emptyRegistry : Registry := fun _ => none

/-- Runtime configuration of the Fly variant. Defaults documented in the
    repository README: heartbeatTtl 30s, heartbeatInterval 10s,
    reaperInterval 30s, maxTurnTimeout 600s. -/
structure SwarmConfig where
  heartbeatTtl : Nat
  heartbeatInterval : Nat
  reaperInterval : Nat
  maxTurnTimeout : Int
deriving DecidableEq, Repr

/-- The configuration values the deployed system runs with (README table). -/
def config : SwarmConfig :=
  { heartbeatTtl := 30, heartbeatInterval := 10, reaperInterval := 30, maxTurnTimeout := 600 }

/- ───────────────── HeartbeatReporter (heartbeat.ts, agent side) ───────────────── -/

/-- The fields of heartbeat.ts HeartbeatReporter: session id, machine id,
    the start timestamp captured in the constructor, and whether the
    setInterval renewal timer is currently active. -/
structure HeartbeatReporter where
  sessionId : String
  machineId : String
  startedAt : Int
  timerActive : Bool
deriving DecidableEq, Repr

/-- A worker-side view of the world: the reporter plus the shared registry. -/
structure WorkerState where
  rep : HeartbeatReporter
  reg : Registry

/-- HeartbeatReporter.report: setex the heartbeat key with the payload and
    heartbeatTtl. -/
def reportHeartbeat (w : WorkerState) (status : AgentStatus) : WorkerState :=
  let payload := RegValue.heartbeat w.rep.machineId w.rep.startedAt status
  { w with reg := rset w.reg (RegKey.heartbeat w.rep.sessionId) payload (some config.heartbeatTtl) }

/-- One firing of the setInterval renewal timer: it writes a running
    heartbeat only while the timer is active (clearInterval stops it). -/
def renewalTick (w : WorkerState) : WorkerState :=
  if w.rep.timerActive then reportHeartbeat w AgentStatus.running else w

/-- The primitive steps performed by markDone / markError, in order:
    stopping the renewal timer, deleting a registry key, writing a registry key. -/
inductive RegOp
  | stopTimer
  | delKey (k : RegKey)
  | setKey (k : RegKey) (v : RegValue) (ttl : Option Nat)
deriving DecidableEq, Repr

/-- Whether a step is the timer stop (as opposed to a registry operation). -/
def isStopTimer : RegOp → Bool
  | RegOp.stopTimer => true
  | _ => false

/-- Holds when the first step of a sequence stops the timer and every later
    step is a registry operation. -/
def stopTimerFirst (ops : List RegOp) : Bool :=
  match ops with
  | [] => false
  | first :: rest => isStopTimer first && rest.all (fun op => !isStopTimer op)

/-- Effect of one step on the worker state. -/
def applyOp (w : WorkerState) : RegOp → WorkerState
  | RegOp.stopTimer => { w with rep := { w.rep with timerActive := false } }
  | RegOp.delKey k => { w with reg := rdel w.reg k }
  | RegOp.setKey k v ttl => { w with reg := rset w.reg k v ttl }

/-- The step sequence of HeartbeatReporter.markDone: this.stop() first
    (clearInterval, synchronous), then del of the heartbeat key and
    set of the status key to "done" with EX 3600. -/
def markDoneOps (sessionId : String) : List RegOp :=
  [RegOp.stopTimer,
   RegOp.delKey (RegKey.heartbeat sessionId),
   RegOp.setKey (RegKey.status sessionId) RegValue.statusDone (some 3600)]

/-- The step sequence of HeartbeatReporter.markError: this.stop() first,
    then del of the heartbeat key and set of the status key to the JSON
    error record with EX 3600. -/
def markErrorOps (sessionId : String) (message : String) : List RegOp :=
  [RegOp.stopTimer,
   RegOp.delKey (RegKey.heartbeat sessionId),
   RegOp.setKey (RegKey.status sessionId) (RegValue.statusError message) (some 3600)]

/-- HeartbeatReporter.markDone applied to the worker state. -/
def markDone (w : WorkerState) : WorkerState :=
  (markDoneOps w.rep.sessionId).foldl applyOp w

/-- HeartbeatReporter.markError applied to the worker state. -/
def markError (w : WorkerState) (message : String) : WorkerState :=
  (markErrorOps w.rep.sessionId message).foldl applyOp w

/- ───────────────── MachineReaper (reaper.ts, orchestrator side) ───────────────── -/

/-- Fly machine lifecycle states, from types.ts FlyMachine. -/
inductive MachineState
  | created
  | starting
  | started
  | stopping
  | stopped
  | replacing
  | destroying
  | destroyed
deriving DecidableEq, Repr

/-- The fields of a Fly machine the reaper consults. -/
structure FlyMachine where
  id : String
  name : String
  state : MachineState
deriving DecidableEq, Repr

/-- Machine name format used by the orchestrator: "agent-session-sessionId". -/
def machineNameHead : String := "agent-session-"

/-- Kernel-evaluable rendering of String.startsWith over the character list. -/
def strStartsWith (s pat : String) : Bool :=
  decide (s.data.take pat.data.length = pat.data)

/-- Kernel-evaluable rendering of String.slice / String.drop over the character list. -/
def strDrop (s : String) (n : Nat) : String :=
  String.mk (s.data.drop n)

/-- The session id encoded in a machine name: machine.name.slice(prefixLength). -/
def sessionIdOf (name : String) : String :=
  strDrop name machineNameHead.length

/-- Outcome of the Fly API stop call issued by killMachine: HTTP success,
    HTTP error response, or a thrown exception. -/
inductive StopOutcome
  | ok
  | httpError (statusCode : Nat) (body : String)
  | thrown (message : String)
deriving DecidableEq, Repr

/-- Observable side effects of a reaper evaluation: registry reads, the Fly
    stop call, error logging, registry deletions. -/
inductive ReaperAction
  | readKey (k : RegKey)
  | stopCall (machineId : String)
  | logError (message : String)
  | delKey (k : RegKey)
deriving DecidableEq, Repr

/-- MachineReaper.evaluateMachine, decision part (reaper.ts): skip machines
    whose name lacks the agent-session- marker; else kill with task_done when
    the raw status string equals "done"; else heartbeat_lost when no heartbeat
    key exists; else timeout when now minus the parsed started_at exceeds
    maxTurnTimeout; else leave the machine alone. A malformed heartbeat
    payload yields NaN in the elapsed comparison, which is false, so no kill. -/
def evaluateMachineDecision (reg : Registry) (now : Int) (cfg : SwarmConfig)
    (m : FlyMachine) : Option (String × KillReason) :=
  if strStartsWith m.name machineNameHead then
    let sessionId := sessionIdOf m.name
    let rawHeartbeat := rget reg (RegKey.heartbeat sessionId)
    let rawStatus := rget reg (RegKey.status sessionId)
    if rawStatus = some RegValue.statusDone then
      some (sessionId, KillReason.task_done)
    else
      match rawHeartbeat with
      | none => some (sessionId, KillReason.heartbeat_lost)
      | some (RegValue.heartbeat _ startedAt _) =>
          if now - startedAt > cfg.maxTurnTimeout then
            some (sessionId, KillReason.timeout)
          else
            none
      | some _ => none
  else none

/-- MachineReaper.killMachine (reaper.ts): issue the stop call (logging on
    failure), then always delete the heartbeat, status and machine keys,
    whatever the stop call's outcome. Returns the new registry and the
    performed actions. -/
def killMachine (reg : Registry) (machineId sessionId : String)
    (outcome : StopOutcome) : Registry × List ReaperAction :=
  let stopActs : List ReaperAction :=
    match outcome with
    | StopOutcome.ok => [ReaperAction.stopCall machineId]
    | StopOutcome.httpError code body =>
        [ReaperAction.stopCall machineId,
         ReaperAction.logError ("stop failed: " ++ toString code ++ " " ++ body)]
    | StopOutcome.thrown message =>
        [ReaperAction.stopCall machineId,
         ReaperAction.logError ("stop request error: " ++ message)]
  (rdel (rdel (rdel reg (RegKey.heartbeat sessionId)) (RegKey.status sessionId))
      (RegKey.machine sessionId),
   stopActs ++
     [ReaperAction.delKey (RegKey.heartbeat sessionId),
      ReaperAction.delKey (RegKey.status sessionId),
      ReaperAction.delKey (RegKey.machine sessionId)])

/-- MachineReaper.evaluateMachine, full effect: machines without the expected
    name marker are returned untouched with no reads, no stop call and no
    deletes; otherwise both keys are read and, when the decision says kill,
    killMachine runs. -/
def evaluateMachineRun (reg : Registry) (now : Int) (cfg : SwarmConfig)
    (m : FlyMachine) (outcome : StopOutcome) : Registry × List ReaperAction :=
  if strStartsWith m.name machineNameHead then
    let sessionId := sessionIdOf m.name
    let reads : List ReaperAction :=
      [ReaperAction.readKey (RegKey.heartbeat sessionId),
       ReaperAction.readKey (RegKey.status sessionId)]
    match evaluateMachineDecision reg now cfg m with
    | some (sid, _) =>
        let res := killMachine reg m.id sid outcome
        (res.1, reads ++ res.2)
    | none => (reg, reads)
  else (reg, [])

/-- Whether a machine state counts as live for the sweep
    (state === "started" || state === "starting" in reaper.ts). -/
def isLiveState : MachineState → Bool
  | MachineState.started => true
  | MachineState.starting => true
  | _ => false

/-- MachineReaper.listRunningMachines: the listing filtered to live states. -/
def listRunningMachines (all : List FlyMachine) : List FlyMachine :=
  all.filter (fun m => isLiveState m.state)

/-- MachineReaper.sweep: evaluate every machine returned by
    listRunningMachines (each decision touches only its own session's keys). -/
def sweep (reg : Registry) (now : Int) (cfg : SwarmConfig)
    (all : List FlyMachine) (outcomeOf : String → StopOutcome) :
    Registry × List ReaperAction :=
  (listRunningMachines all).foldl
    (fun acc m =>
      let res := evaluateMachineRun acc.1 now cfg m (outcomeOf m.id)
      (res.1, acc.2 ++ res.2))
    (reg, [])

/-- Decision rule as the specification states it, written from the spec's
    words for comparison with evaluateMachineDecision: task_done when the
    status record is the terminal done marker, else heartbeat_lost when no
    lease is present, else timeout when the lease is over the wall-clock
    budget, else no reclamation. -/
def reclaimDecisionSpec (statusRec lease : Option RegValue) (now : Int)
    (cfg : SwarmConfig) : Option KillReason :=
  if statusRec = some RegValue.statusDone then
    some KillReason.task_done
  else
    match lease with
    | none => some KillReason.heartbeat_lost
    | some (RegValue.heartbeat _ startedAt _) =>
        if now - startedAt > cfg.maxTurnTimeout then some KillReason.timeout else none
    | some _ => none

/- ───────────────── Reaper sweep scheduling (reaper.ts scheduleNext) ───────────────── -/

/-- Start time of the k-th sweep under the self-rescheduling loop of
    reaper.ts scheduleNext: the first sweep starts one interval after start;
    each later sweep starts one interval after the previous sweep ends
    (setTimeout is re-armed only after the awaited sweep returns).
    dur k is the duration of the k-th sweep. -/
def sweepStart (interval t0 : Nat) (dur : Nat → Nat) : Nat → Nat
  | 0 => t0 + interval
  | k + 1 => sweepStart interval t0 dur k + dur k + interval

/-- End time of the k-th sweep. -/
def sweepEnd (interval t0 : Nat) (dur : Nat → Nat) (k : Nat) : Nat :=
  sweepStart interval t0 dur k + dur k

/-- Whether the k-th sweep is in progress at time t. -/
def sweepInProgress (interval t0 : Nat) (dur : Nat → Nat) (k t : Nat) : Prop :=
  sweepStart interval t0 dur k ≤ t ∧ t < sweepEnd interval t0 dur k

/- ───────────────── Orchestrator (orchestrator.ts, Cloudflare variant) ───────────────── -/

/-- SessionInfo from types.ts (Cloudflare variant). -/
structure SessionInfo where
  session_id : String
  created_at : String
  status : AgentStatus
  message_count : Nat
deriving DecidableEq, Repr

/-- Parsed body of the agent's /health endpoint as getSessionStatus reads it. -/
structure HealthData where
  status : String
  turns : Nat
deriving DecidableEq, Repr

/-- The SessionInfo getSessionStatus builds from a successful health fetch:
    status "running" when the agent reports ok, otherwise "error";
    message count is turns / 2. -/
def sessionInfoOfHealth (sessionId : String) (data : HealthData) : SessionInfo :=
  { session_id := sessionId
    created_at := ""
    status := if data.status = "ok" then AgentStatus.running else AgentStatus.error
    message_count := data.turns / 2 }

/-- Orchestrator.getSessionStatus (orchestrator.ts): the containerFetch of
    /health and the body parse run inside try/catch; a throw (session
    unreachable or gone) is caught and converted into a SessionInfo with
    status error and message_count 0. The call itself never fails. -/
def getSessionStatus (sessionId : String) (fetched : Except String HealthData) :
    Except String SessionInfo :=
  match fetched with
  | Except.ok data => Except.ok (sessionInfoOfHealth sessionId data)
  | Except.error _ =>
      Except.ok { session_id := sessionId, created_at := "",
                  status := AgentStatus.error, message_count := 0 }

/-- Modelled from the spec: sandbox.destroy() of the external Cloudflare
    Sandbox SDK, which the repository only calls. Per the spec's provisioner
    contract, destroying an already-destroyed or unknown session is an
    idempotent no-op, not an error. -/
def sandboxDestroy (_sessionId : String) (_alreadyDestroyed : Bool) : Except String Unit :=
  Except.ok ()

/-- Orchestrator.destroySession (orchestrator.ts): delegates to
    sandbox.destroy() and propagates its result. -/
def destroySession (sessionId : String) (alreadyDestroyed : Bool) : Except String Unit :=
  sandboxDestroy sessionId alreadyDestroyed

/- ───────────────── Agent HTTP server (agent server, Hono variant) ───────────────── -/

/-- A conversation turn kept in the agent server's in-memory history. -/
structure Turn where
  role : String
  content : String
  timestamp : String
deriving DecidableEq, Repr

/-- The agent server's mutable state: conversation history, the processing
    flag, and the last processing error. -/
structure AgentServerState where
  history : List Turn
  processing : Bool
  lastError : Option String
deriving DecidableEq, Repr

/-- The response the POST /message handler produces: HTTP status, whether a
    new background processing run was started, and the returned message
    index when one was. -/
structure PostMessageResponse where
  httpStatus : Nat
  startedProcessing : Bool
  messageIndex : Option Nat
deriving DecidableEq, Repr

/-- JavaScript falsiness of the request content: missing or empty string. -/
def contentFalsy : Option String → Bool
  | none => true
  | some s => decide (s = "")

/-- The POST /message handler of the agent server: reject falsy content with
    400; reject with 409 while already processing; otherwise append the user
    turn, set processing, clear lastError, start background processing and
    answer 200 with the new message index. -/
def postMessage (s : AgentServerState) (content : Option String) (now : String) :
    AgentServerState × PostMessageResponse :=
  if contentFalsy content then
    (s, { httpStatus := 400, startedProcessing := false, messageIndex := none })
  else if s.processing then
    (s, { httpStatus := 409, startedProcessing := false, messageIndex := none })
  else
    ({ history := s.history ++ [{ role := "user", content := content.getD "", timestamp := now }],
       processing := true,
       lastError := none },
     { httpStatus := 200, startedProcessing := true, messageIndex := some s.history.length })

/- ───────────────── Concrete fixtures for witnesses and counterexamples ───────────────── -/

/-- Registry holding a terminal error status record and a live heartbeat for
    session s1. -/
def regTermErr : Registry := fun k =>
  if k = RegKey.status "s1" then some ⟨RegValue.statusError "boom", some 3600⟩
  else if k = RegKey.heartbeat "s1" then
    some ⟨RegValue.heartbeat "m1" 0 AgentStatus.running, some 30⟩
  else none

/-- Machine for session s1, running. -/
def machTermErr : FlyMachine :=
  { id := "m1", name := "agent-session-s1", state := MachineState.started }

/-- Registry holding only a live heartbeat (started at 0) for session w1. -/
def regLiveW : Registry := fun k =>
  if k = RegKey.heartbeat "w1" then
    some ⟨RegValue.heartbeat "m2" 0 AgentStatus.running, some 30⟩
  else none

/-- Machine for session w1, running. -/
def machLiveW : FlyMachine :=
  { id := "m2", name := "agent-session-w1", state := MachineState.started }

/-- A machine whose name does not carry the agent-session- marker. -/
def machForeign : FlyMachine :=
  { id := "m9", name := "builder-1", state := MachineState.started }

/-- An agent server that is currently processing a message. -/
def busyAgent : AgentServerState :=
  { history := [], processing := true, lastError := none }

/- ───────────────── Registry helper lemmas ───────────────── -/

/-- Writing a key twice keeps only the last write. -/
theorem rset_rset_same (r : Registry) (k : RegKey) (v v2 : RegValue) (t t2 : Option Nat) :
    rset (rset r k v t) k v2 t2 = rset r k v2 t2 := by
  funext k2
  by_cases h : k2 = k <;> simp [rset, h]

/-- Deleting a key twice equals deleting it once. -/
theorem rdel_rdel_same (r : Registry) (k : RegKey) :
    rdel (rdel r k) k = rdel r k := by
  funext k2
  by_cases h : k2 = k <;> simp [rdel, h]

/- ───────────────── Claim theorems ───────────────── -/

/-- C1 counterexample: for machine machTermErr the session's status record is
    present and terminal (an error record), yet the reaper's decision is none
    rather than task_done — the code compares the raw status string against
    "done" only, so a terminal error record does not trigger task_done, and
    with a live under-budget heartbeat the machine is not reclaimed at all. -/
theorem evaluateMachine_error_record_not_task_done :
    rget regTermErr (RegKey.status "s1") = some (RegValue.statusError "boom") ∧
    evaluateMachineDecision regTermErr 100 config machTermErr = none := by
  constructor
  · decide
  · decide

/-- C1 (amended): for every machine whose name carries the agent-session-
    marker, the reaper's reclamation decision agrees with the priority rule
    applied to the session's status record and lease, with first match
    winning: task_done exactly when the status record is the terminal done
    marker (an error record does not qualify), otherwise heartbeat_lost when
    no lease is present, otherwise timeout when the lease is over the
    wall-clock budget, otherwise the machine is left untouched. -/
theorem evaluateMachine_follows_priority_rule (reg : Registry) (now : Int)
    (cfg : SwarmConfig) (m : FlyMachine)
    (h : strStartsWith m.name machineNameHead = true) :
    evaluateMachineDecision reg now cfg m =
      (reclaimDecisionSpec (rget reg (RegKey.status (sessionIdOf m.name)))
          (rget reg (RegKey.heartbeat (sessionIdOf m.name))) now cfg).map
        (fun r => (sessionIdOf m.name, r)) := by
  simp only [evaluateMachineDecision, reclaimDecisionSpec, h, if_true]
  by_cases hs : rget reg (RegKey.status (sessionIdOf m.name)) = some RegValue.statusDone
  · simp [hs]
  · cases hhb : rget reg (RegKey.heartbeat (sessionIdOf m.name)) with
    | none => simp [hs, hhb]
    | some v =>
        cases v with
        | heartbeat mid st ast =>
            by_cases ht : now - st > cfg.maxTurnTimeout <;> simp [hs, hhb, ht]
        | statusDone => simp [hs, hhb]
        | statusError msg => simp [hs, hhb]
        | mapping a b => simp [hs, hhb]

/-- C1 witness: the amended priority rule instantiated on a live session with
    a heartbeat started at 0 observed at time 700. -/
theorem evaluateMachine_follows_priority_rule_witness :
    strStartsWith machLiveW.name machineNameHead = true ∧
    evaluateMachineDecision regLiveW 700 config machLiveW =
      (reclaimDecisionSpec (rget regLiveW (RegKey.status (sessionIdOf machLiveW.name)))
          (rget regLiveW (RegKey.heartbeat (sessionIdOf machLiveW.name))) 700 config).map
        (fun r => (sessionIdOf machLiveW.name, r)) :=
  ⟨by decide, evaluateMachine_follows_priority_rule regLiveW 700 config machLiveW (by decide)⟩

/-- C2: killMachine deletes the heartbeat, status and machine keys for the
    session whatever the stop call's outcome — success, HTTP error or thrown
    exception; the resulting registry is the same in all three cases, the
    three deletions are among the performed actions in every case, and the
    function returns normally, so a failed stop never blocks the cleanup. -/
theorem killMachine_cleanup_unconditional (reg : Registry)
    (machineId sessionId : String) (outcome : StopOutcome) :
    rget (killMachine reg machineId sessionId outcome).1 (RegKey.heartbeat sessionId) = none ∧
    rget (killMachine reg machineId sessionId outcome).1 (RegKey.status sessionId) = none ∧
    rget (killMachine reg machineId sessionId outcome).1 (RegKey.machine sessionId) = none ∧
    (killMachine reg machineId sessionId outcome).1 =
      (killMachine reg machineId sessionId StopOutcome.ok).1 ∧
    ReaperAction.delKey (RegKey.heartbeat sessionId) ∈
      (killMachine reg machineId sessionId outcome).2 ∧
    ReaperAction.delKey (RegKey.status sessionId) ∈
      (killMachine reg machineId sessionId outcome).2 ∧
    ReaperAction.delKey (RegKey.machine sessionId) ∈
      (killMachine reg machineId sessionId outcome).2 := by
  cases outcome <;> simp [killMachine, rget, rdel]

/-- C3: the terminal sequences of markDone and markError stop the renewal
    timer synchronously as their first step, before any registry operation;
    after markDone the timer is inactive and a renewal tick can no longer
    write a lease, the lease key has been deleted, and the status key holds
    the terminal done record with a 3600-second TTL. -/
theorem markDone_stops_timer_before_terminal_sequence (w : WorkerState) (message : String) :
    stopTimerFirst (markDoneOps w.rep.sessionId) = true ∧
    stopTimerFirst (markErrorOps w.rep.sessionId message) = true ∧
    (markDone w).rep.timerActive = false ∧
    (markError w message).rep.timerActive = false ∧
    renewalTick (markDone w) = markDone w ∧
    renewalTick (markError w message) = markError w message ∧
    rget (markDone w).reg (RegKey.heartbeat w.rep.sessionId) = none ∧
    (markDone w).reg (RegKey.status w.rep.sessionId) = some ⟨RegValue.statusDone, some 3600⟩ := by
  refine ⟨rfl, rfl, rfl, rfl, ?_, ?_, ?_, ?_⟩
  · simp [renewalTick, markDone, markDoneOps, applyOp]
  · simp [renewalTick, markError, markErrorOps, applyOp]
  · simp [markDone, markDoneOps, applyOp, rget, rset, rdel]
  · simp [markDone, markDoneOps, applyOp, rset, rdel]

/-- C6: markDone is idempotent — a second call leaves the worker state
    (timer and registry alike) exactly as the first left it, with the same
    terminal done record under the status key and no lease key; the second
    call is an ordinary delete-plus-overwrite and completes without error. -/
theorem markDone_idempotent (w : WorkerState) :
    markDone (markDone w) = markDone w ∧
    rget (markDone w).reg (RegKey.status w.rep.sessionId) = some RegValue.statusDone ∧
    rget (markDone w).reg (RegKey.heartbeat w.rep.sessionId) = none := by
  refine ⟨?_, ?_, ?_⟩
  · simp only [markDone, markDoneOps, applyOp, List.foldl]
    congr 1
    funext k
    by_cases h1 : k = RegKey.status w.rep.sessionId <;>
      by_cases h2 : k = RegKey.heartbeat w.rep.sessionId <;>
      simp [rset, rdel, h1, h2]
  · simp [markDone, markDoneOps, applyOp, rget, rset, rdel]
  · simp [markDone, markDoneOps, applyOp, rget, rset, rdel]

/-- Under the self-rescheduling loop, every sweep ends no later than any
    later sweep starts. -/
theorem sweepEnd_le_sweepStart_of_lt (interval t0 : Nat) (dur : Nat → Nat) :
    ∀ {j k : Nat}, j < k →
      sweepEnd interval t0 dur j ≤ sweepStart interval t0 dur k := by
  intro j k
  induction k with
  | zero => intro h; exact absurd h (Nat.not_lt_zero j)
  | succ k ih =>
      intro h
      rcases Nat.lt_succ_iff_lt_or_eq.mp h with h2 | h2
      · calc sweepEnd interval t0 dur j ≤ sweepStart interval t0 dur k := ih h2
          _ ≤ sweepStart interval t0 dur (k + 1) := by simp [sweepStart]; omega
      · subst h2
        simp [sweepEnd, sweepStart]

/-- C4: sweeps of the self-rescheduling reaper loop never overlap: the next
    setTimeout is armed only after the awaited sweep returns, so whatever the
    interval, start time and per-sweep durations, two distinct sweeps are
    never in progress at the same instant — at every point in time at most
    one sweep is running. -/
theorem reaper_sweeps_never_overlap (interval t0 : Nat) (dur : Nat → Nat)
    (j k t : Nat) (hjk : j ≠ k) :
    ¬ (sweepInProgress interval t0 dur j t ∧ sweepInProgress interval t0 dur k t) := by
  intro hcon
  simp only [sweepInProgress] at hcon
  obtain ⟨⟨hjs, hje⟩, hks, hke⟩ := hcon
  rcases Nat.lt_or_gt_of_ne hjk with h | h
  · have h1 : sweepEnd interval t0 dur j ≤ sweepStart interval t0 dur k :=
      sweepEnd_le_sweepStart_of_lt interval t0 dur h
    omega
  · have h1 : sweepEnd interval t0 dur k ≤ sweepStart interval t0 dur j :=
      sweepEnd_le_sweepStart_of_lt interval t0 dur h
    omega

/-- C4 witness: with interval 30, first sweep from 30 to 35, second sweep
    from 65 to 70, time 35 lies in at most one sweep. -/
theorem reaper_sweeps_never_overlap_witness :
    (0 : Nat) ≠ 1 ∧
    ¬ (sweepInProgress 30 0 (fun _ => 5) 0 35 ∧ sweepInProgress 30 0 (fun _ => 5) 1 35) :=
  ⟨by decide, reaper_sweeps_never_overlap 30 0 (fun _ => 5) 0 1 35 (by decide)⟩

/-- C5: a continuously heartbeating worker is still reclaimed once over
    budget: whenever the session's lease is present and no terminal status
    record exists, the configured maxTurnTimeout is 600 and the reaper's
    decision is timeout exactly when the sweep time minus the lease's
    started_at exceeds 600 — so the first sweep past the budget reclaims the
    machine with reason timeout and no earlier sweep reclaims it. -/
theorem timeout_overrides_healthy_heartbeat (reg : Registry) (m : FlyMachine)
    (machineId : String) (startedAt now : Int) (ast : AgentStatus)
    (hname : strStartsWith m.name machineNameHead = true)
    (hstatus : rget reg (RegKey.status (sessionIdOf m.name)) = none)
    (hlease : rget reg (RegKey.heartbeat (sessionIdOf m.name)) =
      some (RegValue.heartbeat machineId startedAt ast)) :
    config.maxTurnTimeout = 600 ∧
    (evaluateMachineDecision reg now config m =
        some (sessionIdOf m.name, KillReason.timeout) ↔ now - startedAt > 600) := by
  refine ⟨rfl, ?_⟩
  simp only [evaluateMachineDecision, hname, if_true, hstatus, hlease]
  by_cases ht : now - startedAt > (600 : Int) <;> simp [config, ht]

/-- C5 witness: session w1 heartbeating since time 0 with no status record,
    observed by a sweep at time 700. -/
theorem timeout_overrides_healthy_heartbeat_witness :
    strStartsWith machLiveW.name machineNameHead = true ∧
    rget regLiveW (RegKey.status (sessionIdOf machLiveW.name)) = none ∧
    rget regLiveW (RegKey.heartbeat (sessionIdOf machLiveW.name)) =
      some (RegValue.heartbeat "m2" 0 AgentStatus.running) ∧
    (config.maxTurnTimeout = 600 ∧
      (evaluateMachineDecision regLiveW 700 config machLiveW =
          some (sessionIdOf machLiveW.name, KillReason.timeout) ↔ (700 : Int) - 0 > 600)) :=
  ⟨by decide, by decide, by decide,
   timeout_overrides_healthy_heartbeat regLiveW machLiveW "m2" 0 700 AgentStatus.running
     (by decide) (by decide) (by decide)⟩

/-- C7: a sweep evaluates exactly the machines the provisioner listing
    reports in state started or starting: membership in listRunningMachines,
    the list the sweep folds over, holds precisely for machines of the
    listing whose state is one of those two — machines in any other state are
    never evaluated or reclaimed by that sweep. -/
theorem sweep_evaluates_exactly_live_machines (all : List FlyMachine) (m : FlyMachine) :
    m ∈ listRunningMachines all ↔
      m ∈ all ∧ (m.state = MachineState.started ∨ m.state = MachineState.starting) := by
  rw [listRunningMachines, List.mem_filter]
  constructor
  · rintro ⟨hm, hl⟩
    refine ⟨hm, ?_⟩
    cases h : m.state <;> rw [h] at hl <;> simp [isLiveState] at hl <;> simp
  · rintro ⟨hm, hl⟩
    refine ⟨hm, ?_⟩
    rcases hl with h | h <;> simp [isLiveState, h]

/-- C8: a machine whose name does not carry the agent-session- marker is left
    completely untouched by the sweep's evaluation: no registry key is read
    or deleted, no stop call is issued, no action at all is performed, and
    the registry comes back unchanged. -/
theorem evaluateMachine_ignores_foreign_names (reg : Registry) (now : Int)
    (cfg : SwarmConfig) (m : FlyMachine) (outcome : StopOutcome)
    (h : strStartsWith m.name machineNameHead = false) :
    evaluateMachineRun reg now cfg m outcome = (reg, []) := by
  simp [evaluateMachineRun, h]

/-- C8 witness: the machine named builder-1 is ignored on an empty registry. -/
theorem evaluateMachine_ignores_foreign_names_witness :
    strStartsWith machForeign.name machineNameHead = false ∧
    evaluateMachineRun emptyRegistry 0 config machForeign StopOutcome.ok =
      (emptyRegistry, []) :=
  ⟨by decide,
   evaluateMachine_ignores_foreign_names emptyRegistry 0 config machForeign
     StopOutcome.ok (by decide)⟩

/-- C9 counterexample: getSessionStatus on an unreachable or unknown session
    does not fail — the thrown fetch error is caught and the call returns ok,
    carrying a SessionInfo with status error and message_count 0, instead of
    propagating an error. -/
theorem getSessionStatus_unreachable_does_not_fail :
    getSessionStatus "ghost" (Except.error "connection refused") =
      Except.ok { session_id := "ghost", created_at := "",
                  status := AgentStatus.error, message_count := 0 } := by
  rfl

/-- C9 (amended): operations on an unknown or unreachable session never
    propagate a failure: getSessionStatus catches the error and reports it
    in-band, returning ok with a SessionInfo whose status is error and whose
    message_count is 0, while destroySession delegates to the sandbox's
    idempotent destroy and returns ok whether or not the session was already
    destroyed. -/
theorem unknown_session_status_and_destroy (sessionId msg : String)
    (alreadyDestroyed : Bool) :
    getSessionStatus sessionId (Except.error msg) =
      Except.ok { session_id := sessionId, created_at := "",
                  status := AgentStatus.error, message_count := 0 } ∧
    destroySession sessionId alreadyDestroyed = Except.ok () :=
  ⟨rfl, rfl⟩

/-- C10 counterexample: while the server is processing, a POST /message whose
    content is empty is answered 400, not 409, because the content check runs
    before the processing check — so the claim that every message arriving
    while the processing flag is set gets a 409 is false (the state is still
    left unchanged). -/
theorem postMessage_busy_empty_content_not_409 :
    busyAgent.processing = true ∧
    (postMessage busyAgent (some "") "t0").2.httpStatus = 400 ∧
    (postMessage busyAgent (some "") "t0").2.httpStatus ≠ 409 ∧
    (postMessage busyAgent (some "") "t0").1 = busyAgent := by
  refine ⟨rfl, rfl, by decide, rfl⟩

/-- C10 (amended): while the processing flag is set, POST /message never
    mutates the server: the state (history, processing flag, lastError)
    comes back identical and no background processing is started; the
    response is 409 for non-empty content and 400 for missing or empty
    content, since the content check precedes the processing check. -/
theorem postMessage_busy_rejected_state_unchanged (s : AgentServerState)
    (content : Option String) (now : String) (h : s.processing = true) :
    (postMessage s content now).1 = s ∧
    (postMessage s content now).2.startedProcessing = false ∧
    (postMessage s content now).2.httpStatus =
      (if contentFalsy content then 400 else 409) := by
  cases hc : contentFalsy content <;> simp [postMessage, h, hc]

/-- C10 witness: a busy server rejects a non-empty message with 409 and keeps
    its state unchanged. -/
theorem postMessage_busy_rejected_state_unchanged_witness :
    busyAgent.processing = true ∧
    ((postMessage busyAgent (some "hello") "t1").1 = busyAgent ∧
     (postMessage busyAgent (some "hello") "t1").2.startedProcessing = false ∧
     (postMessage busyAgent (some "hello") "t1").2.httpStatus =
       (if contentFalsy (some "hello") then 400 else 409)) :=
  ⟨rfl, postMessage_busy_rejected_state_unchanged busyAgent (some "hello") "t1" rfl⟩

end ClaudeSwarm
